import Mathlib

/-!
Verification of the audio-to-Spotify Telegram bot (`main.go`) against its
natural-language specification.

The Go program is shallowly embedded here.  Go strings are UTF-8 byte
strings; wherever the code manipulates them rune-by-rune (trimming,
formatting) we model a string as a `List Char` of its runes, and wherever
the code manipulates raw bytes (URL percent-escaping) we model the string
as a `List Nat` of its bytes.  Fallible Go functions return `Except`.
The two external services (Telegram transport and the Spotify search
endpoint) are modelled as inputs: a handler receives the inbound message
and the outcome the Spotify client returned for its single search call,
and produces the list of replies it sent.
-/

namespace SpotifyBot

/-- A Go string viewed as its list of runes. -/
abbrev GoStr := List Char

/-- Membership of a rune in Go's `unicode.IsSpace` class: `\t \n \v \f \r`,
space, NEL, NBSP, and the Unicode `White_Space` code points beyond Latin-1
(U+1680, U+2000–U+200A, U+2028, U+2029, U+202F, U+205F, U+3000). -/
def goIsSpace (c : Char) : Bool :=
  let n := c.toNat
  (9 ≤ n && n ≤ 13) || n == 32 || n == 0x85 || n == 0xA0 ||
  n == 0x1680 || (0x2000 ≤ n && n ≤ 0x200A) ||
  n == 0x2028 || n == 0x2029 || n == 0x202F || n == 0x205F || n == 0x3000

/-- Go `strings.TrimSpace`: drop `unicode.IsSpace` runes from both ends. -/
def trimSpace (s : GoStr) : GoStr :=
  ((s.dropWhile goIsSpace).reverse.dropWhile goIsSpace).reverse

/-- Go `strings.TrimSuffix sfx s`: remove one trailing copy of `sfx` when
present, otherwise return `s` unchanged. -/
def trimSuffix (sfx s : GoStr) : GoStr :=
  if sfx.isSuffixOf s then s.take (s.length - sfx.length) else s

/-- The audio attachment fields the handler reads (`msg.Audio`). -/
structure Audio where
  title : GoStr
  performer : GoStr
  fileName : GoStr
deriving DecidableEq, Repr

/-- Query derivation of `handleAudioMessage` (main.go lines 198–211),
factored out: trim title and performer, join with a single space and trim
again; if empty fall back to the file name with one trailing `".mp3"`
removed and trimmed; if still empty fail with the handler's error value
(`EmptyQuery` in the spec's taxonomy). -/
def extractQuery (a : Audio) : Except GoStr GoStr :=
  let title := trimSpace a.title
  let author := trimSpace a.performer
  let query := trimSpace (title ++ " ".toList ++ author)
  let query := if query = [] then trimSpace (trimSuffix ".mp3".toList a.fileName) else query
  if query = [] then .error "audio metadata or filename is missing".toList else .ok query

/-! ### Lemmas about trimming -/

theorem trimSpace_eq_nil_iff {s : GoStr} :
    trimSpace s = [] ↔ ∀ c ∈ s, goIsSpace c = true := by
  unfold trimSpace
  rw [List.reverse_eq_nil_iff, List.dropWhile_eq_nil_iff]
  constructor
  · intro h c hc
    have hsplit := List.takeWhile_append_dropWhile (p := goIsSpace) (l := s)
    rw [← hsplit] at hc
    rcases List.mem_append.mp hc with h1 | h2
    · exact List.mem_takeWhile_imp h1
    · exact h c (List.mem_reverse.mpr h2)
  · intro h c hc
    exact h c ((List.dropWhile_sublist goIsSpace).subset (List.mem_reverse.mp hc))

theorem exists_not_space_of_trimSpace_ne_nil {s : GoStr} (h : trimSpace s ≠ []) :
    ∃ c ∈ trimSpace s, goIsSpace c = false := by
  unfold trimSpace at h ⊢
  have hlne : (s.dropWhile goIsSpace).reverse.dropWhile goIsSpace ≠ [] := by
    intro hnil
    exact h (by rw [hnil]; rfl)
  refine ⟨((s.dropWhile goIsSpace).reverse.dropWhile goIsSpace).head hlne, ?_, ?_⟩
  · exact List.mem_reverse.mpr (List.head_mem hlne)
  · have hnot := List.head_dropWhile_not goIsSpace (s.dropWhile goIsSpace).reverse hlne
    simpa using hnot

theorem trimSpace_append_ne_nil_left {s t : GoStr} (h : trimSpace s ≠ []) :
    trimSpace (trimSpace s ++ t) ≠ [] := by
  obtain ⟨c, hc, hcs⟩ := exists_not_space_of_trimSpace_ne_nil h
  intro hnil
  have := trimSpace_eq_nil_iff.mp hnil c (List.mem_append.mpr (Or.inl hc))
  rw [this] at hcs
  simp at hcs

theorem trimSpace_append_ne_nil_right {s t : GoStr} (h : trimSpace t ≠ []) :
    trimSpace (s ++ trimSpace t) ≠ [] := by
  obtain ⟨c, hc, hcs⟩ := exists_not_space_of_trimSpace_ne_nil h
  intro hnil
  have := trimSpace_eq_nil_iff.mp hnil c (List.mem_append.mpr (Or.inr hc))
  rw [this] at hcs
  simp at hcs

/-- A whitespace-only file name cannot end in `".mp3"` (the digit `'3'` is
not a space), so `strings.TrimSuffix` leaves it unchanged. -/
theorem trimSuffix_mp3_of_blank {s : GoStr} (h : trimSpace s = []) :
    trimSuffix ".mp3".toList s = s := by
  unfold trimSuffix
  rw [if_neg]
  intro hsfx
  rw [List.isSuffixOf_iff_suffix] at hsfx
  obtain ⟨t, ht⟩ := hsfx
  have h3 : '3' ∈ s := by
    rw [← ht]
    refine List.mem_append.mpr (Or.inr ?_)
    decide
  have := trimSpace_eq_nil_iff.mp h '3' h3
  simp [goIsSpace] at this

/-! ### URL path-segment escaping (`net/url.PathEscape` / `PathUnescape`)

`PathEscape` works byte-by-byte over the UTF-8 bytes of the string, so this
part of the model uses `List Nat` byte strings (each byte `< 256`). -/

/-- The UTF-8 bytes of one rune. -/
def utf8Bytes (c : Char) : List Nat :=
  let v := c.toNat
  if v < 0x80 then [v]
  else if v < 0x800 then [0xC0 + v / 64, 0x80 + v % 64]
  else if v < 0x10000 then [0xE0 + v / 4096, 0x80 + v / 64 % 64, 0x80 + v % 64]
  else [0xF0 + v / 262144, 0x80 + v / 4096 % 64, 0x80 + v / 64 % 64, 0x80 + v % 64]

/-- The UTF-8 byte string of a Go string. -/
def utf8Encode : GoStr → List Nat
  | [] => []
  | c :: rest => utf8Bytes c ++ utf8Encode rest

/-- Go `url.shouldEscape c encodePathSegment`: keep alphanumerics, the
unreserved marks `- _ . ~`, and of the RFC 3986 reserved set keep
`$ & + : = @` while escaping `/ ; , ?`; every other byte is escaped. -/
def shouldEscapePathSegment (b : Nat) : Bool :=
  !((0x61 ≤ b && b ≤ 0x7A) || (0x41 ≤ b && b ≤ 0x5A) || (0x30 ≤ b && b ≤ 0x39) ||
    b == 0x2D || b == 0x5F || b == 0x2E || b == 0x7E ||
    b == 0x24 || b == 0x26 || b == 0x2B || b == 0x3A || b == 0x3D || b == 0x40)

/-- Upper-case hexadecimal digit, as used by `net/url`'s escaper. -/
def upperHexDigit (d : Nat) : Char :=
  if d < 10 then Char.ofNat (48 + d) else Char.ofNat (55 + d)

/-- Escape one byte for a path segment: either the byte's own character or
a `%XX` triple. -/
def pathEscapeByte (b : Nat) : GoStr :=
  if shouldEscapePathSegment b then
    ['%', upperHexDigit (b / 16), upperHexDigit (b % 16)]
  else [Char.ofNat b]

/-- Go `url.PathEscape` on a byte string. -/
def pathEscapeBytes : List Nat → GoStr
  | [] => []
  | b :: rest => pathEscapeByte b ++ pathEscapeBytes rest

/-- Hexadecimal-digit test of `net/url.ishex`. -/
def isHexChar (c : Char) : Bool :=
  ('0' ≤ c && c ≤ '9') || ('a' ≤ c && c ≤ 'f') || ('A' ≤ c && c ≤ 'F')

/-- Hexadecimal value of a digit character (`net/url.unhex`). -/
def unhex (c : Char) : Nat :=
  if '0' ≤ c && c ≤ '9' then c.toNat - 48
  else if 'a' ≤ c && c ≤ 'f' then c.toNat - 87
  else c.toNat - 55

/-- Go `url.PathUnescape`: decode `%XX` triples back to bytes, failing on a
malformed escape, and pass every other byte through. -/
def pathUnescapeBytes : GoStr → Except Unit (List Nat)
  | [] => .ok []
  | c :: rest =>
    if c = '%' then
      match rest with
      | a :: b :: rest2 =>
        if isHexChar a && isHexChar b then
          (pathUnescapeBytes rest2).map (fun t => (16 * unhex a + unhex b) :: t)
        else .error ()
      | _ => .error ()
    else (pathUnescapeBytes rest).map (fun t => c.toNat :: t)

/-- Function `buildSpotifyUserSearchURL` (main.go lines 276–279): the fixed base
followed by the path-escaped query. -/
def buildSpotifyUserSearchURL (query : GoStr) : GoStr :=
  "https://open.spotify.com/search".toList ++ "/".toList ++ pathEscapeBytes (utf8Encode query)

/-! ### Round trip of path escaping -/

theorem unhex_upperHexDigit {d : Nat} (h : d < 16) :
    unhex (upperHexDigit d) = d ∧ isHexChar (upperHexDigit d) = true := by
  interval_cases d <;> exact ⟨by decide, by decide⟩

theorem toNat_ofNat_of_lt {b : Nat} (h : b < 0xD800) : (Char.ofNat b).toNat = b := by
  have hv : b.isValidChar := Or.inl h
  rw [Char.ofNat, dif_pos hv]
  rfl

theorem pathUnescapeBytes_cons_of_ne {c : Char} (rest : GoStr) (h : c ≠ '%') :
    pathUnescapeBytes (c :: rest) = (pathUnescapeBytes rest).map (fun t => c.toNat :: t) := by
  match rest with
  | [] => simp [pathUnescapeBytes, h]
  | [a] => simp [pathUnescapeBytes, h]
  | a :: b :: rest2 => simp [pathUnescapeBytes, h]

theorem pathUnescapeBytes_percent (a b : Char) (rest2 : GoStr) :
    pathUnescapeBytes ('%' :: a :: b :: rest2) =
      if isHexChar a && isHexChar b then
        (pathUnescapeBytes rest2).map (fun t => (16 * unhex a + unhex b) :: t)
      else .error () := by
  simp [pathUnescapeBytes]

theorem pathUnescape_pathEscapeBytes {bs : List Nat} (h : ∀ b ∈ bs, b < 256) :
    pathUnescapeBytes (pathEscapeBytes bs) = .ok bs := by
  induction bs with
  | nil => rfl
  | cons b rest ih =>
    have hb : b < 256 := h b (List.mem_cons_self b rest)
    have hrest := ih (fun x hx => h x (List.mem_cons_of_mem b hx))
    rw [pathEscapeBytes]
    by_cases hesc : shouldEscapePathSegment b = true
    · have hhi := unhex_upperHexDigit (d := b / 16) (by omega)
      have hlo := unhex_upperHexDigit (d := b % 16) (by omega)
      rw [pathEscapeByte, if_pos hesc]
      rw [List.cons_append, List.cons_append, List.cons_append, List.nil_append]
      rw [pathUnescapeBytes_percent, hhi.2, hlo.2]
      rw [hrest]
      have : 16 * (b / 16) + b % 16 = b := by omega
      simp [Except.map, hhi.1, hlo.1, this]
    · rw [pathEscapeByte, if_neg hesc]
      have hb37 : b ≠ 37 := by
        intro hcon
        rw [hcon] at hesc
        exact hesc (by decide)
      have hcne : Char.ofNat b ≠ '%' := by
        intro hcon
        have := congrArg Char.toNat hcon
        rw [toNat_ofNat_of_lt (by omega)] at this
        exact hb37 (by simpa using this)
      rw [List.cons_append, List.nil_append, pathUnescapeBytes_cons_of_ne _ hcne, hrest]
      simp [Except.map, toNat_ofNat_of_lt (show b < 0xD800 by omega)]

/-! ### HTML escaping of `html/template`

`buildResultText` executes the constant template
`<a href="{{.URL}}">{{.Name}}</a>\nby <b>{{.Artists}}</b>` with Go's
`html/template`, which escapes each interpolation for its context:
`.Name` and `.Artists` sit in text nodes and pass through `htmlEscaper`;
`.URL` sits in a double-quoted `href` attribute and passes through
`urlFilter`, then `urlNormalizer`, then the attribute escaper (which on a
plain string is the same `htmlReplacementTable` replacement). -/

/-- One rune through `html/template`'s `htmlReplacementTable`: NUL becomes
U+FFFD and `" & ' + < = >` become numeric or named character references. -/
def escapeHTMLChar (c : Char) : GoStr :=
  if c = Char.ofNat 0 then [Char.ofNat 0xFFFD]
  else if c = '"' then "&#34;".toList
  else if c = '&' then "&amp;".toList
  else if c = Char.ofNat 39 then "&#39;".toList
  else if c = '+' then "&#43;".toList
  else if c = '<' then "&lt;".toList
  else if c = '=' then "&#61;".toList
  else if c = '>' then "&gt;".toList
  else [c]

/-- The `htmlEscaper` of `html/template` (and, on plain strings, its attribute
escaper) applied to a whole string. -/
def htmlEscape : GoStr → GoStr
  | [] => []
  | c :: rest => escapeHTMLChar c ++ htmlEscape rest

/-- Go `strings.EqualFold` restricted to what the scheme comparison needs:
simple case folding, which for the letters of `http/https/mailto` is ASCII
lowering plus the tie of long s (U+017F) with `s` and of the Kelvin sign
(U+212A) with `k`. -/
def foldScheme (c : Char) : Char :=
  if 'A' ≤ c && c ≤ 'Z' then Char.ofNat (c.toNat + 32)
  else if c = Char.ofNat 0x17F then 's'
  else if c = Char.ofNat 0x212A then 'k'
  else c

/-- The `isSafeURL` of `html/template`: if the text before the first `:` has no
`/`, it must case-fold to `http`, `https` or `mailto`. -/
def isSafeURL (s : GoStr) : Bool :=
  if ':' ∈ s then
    let protocol := s.takeWhile (· ≠ ':')
    if '/' ∈ protocol then true
    else
      protocol.map foldScheme = "http".toList ||
      protocol.map foldScheme = "https".toList ||
      protocol.map foldScheme = "mailto".toList
  else true

/-- The `urlFilter` of `html/template`: an unsafe scheme is replaced by the
sentinel `#ZgotmplZ`. -/
def urlFilter (s : GoStr) : GoStr :=
  if isSafeURL s then s else "#ZgotmplZ".toList

/-- Bytes copied verbatim by `urlNormalizer` (`processURLOnto` with
`norm = true`): alphanumerics, `- . _ ~`, and `! # $ & * + , / : ; = ? @ [ ]`. -/
def urlNormKeep (b : Nat) : Bool :=
  (0x61 ≤ b && b ≤ 0x7A) || (0x41 ≤ b && b ≤ 0x5A) || (0x30 ≤ b && b ≤ 0x39) ||
  b == 0x2D || b == 0x2E || b == 0x5F || b == 0x7E ||
  b == 0x21 || b == 0x23 || b == 0x24 || b == 0x26 || b == 0x2A || b == 0x2B ||
  b == 0x2C || b == 0x2F || b == 0x3A || b == 0x3B || b == 0x3D || b == 0x3F ||
  b == 0x40 || b == 0x5B || b == 0x5D

/-- Lower-case hexadecimal digit (`processURLOnto` writes `%%%02x`). -/
def lowerHexDigit (d : Nat) : Char :=
  if d < 10 then Char.ofNat (48 + d) else Char.ofNat (87 + d)

/-- Hexadecimal-byte test used by `urlNormalizer` when deciding whether an
existing `%XX` triple is kept. -/
def isHexByte (b : Nat) : Bool :=
  (0x30 ≤ b && b ≤ 0x39) || (0x61 ≤ b && b ≤ 0x66) || (0x41 ≤ b && b ≤ 0x46)

/-- The byte loop of `urlNormalizer`: keep safe bytes and well-formed `%XX`
triples, percent-encode everything else with lower-case hex. -/
def urlNormBytes : List Nat → List Nat
  | [] => []
  | b :: rest =>
    let hexFollows : Bool := match rest with
      | b1 :: b2 :: _ => isHexByte b1 && isHexByte b2
      | _ => false
    if b == 0x25 && hexFollows then
      b :: urlNormBytes rest
    else if urlNormKeep b then b :: urlNormBytes rest
    else 0x25 :: (lowerHexDigit (b / 16)).toNat :: (lowerHexDigit (b % 16)).toNat ::
      urlNormBytes rest

/-- The full escaping pipeline of `{{.URL}}` inside `href="..."`:
`urlFilter`, then `urlNormalizer` over the UTF-8 bytes (its output is
ASCII), then the attribute escaper. -/
def escapeURLAttr (s : GoStr) : GoStr :=
  htmlEscape ((urlNormBytes (utf8Encode (urlFilter s))).map Char.ofNat)

/-! ### The result template (`buildResultText`, main.go lines 281–302) -/

/-- Escaping context of an interpolation in the track template. -/
inductive EscContext where
  | htmlText
  | urlAttr
deriving DecidableEq, Repr

/-- A node of the parsed template: literal text or a `{{.Field}}` action
with the escapers `html/template` attached to its context. -/
inductive TplNode where
  | text (s : GoStr)
  | field (name : GoStr) (ctx : EscContext)
deriving DecidableEq, Repr

/-- The parse of the constant template string
`<a href="{{.URL}}">{{.Name}}</a>\nby <b>{{.Artists}}</b>`.  Parsing a
constant well-formed template cannot fail, so the parse is embedded as
this value. -/
def trackTemplate : List TplNode :=
  [.text "<a href=\"".toList, .field "URL".toList .urlAttr,
   .text "\">".toList, .field "Name".toList .htmlText,
   .text "</a>\nby <b>".toList, .field "Artists".toList .htmlText,
   .text "</b>".toList]

/-- The `trackData` struct of main.go. -/
structure TrackData where
  Name : GoStr
  Artists : GoStr
  URL : GoStr
deriving DecidableEq, Repr

/-- Field resolution of `text/template` on the `trackData` struct. -/
def lookupField (td : TrackData) (n : GoStr) : Option GoStr :=
  if n = "Name".toList then some td.Name
  else if n = "Artists".toList then some td.Artists
  else if n = "URL".toList then some td.URL
  else none

/-- Apply the escaper chain of a context. -/
def escapeField : EscContext → GoStr → GoStr
  | .htmlText, v => htmlEscape v
  | .urlAttr, v => escapeURLAttr v

/-- Model of `Template.Execute`: render each node in order; an unresolvable field is
the only error source (writes to a `bytes.Buffer` cannot fail). -/
def executeTemplate (td : TrackData) : List TplNode → Except GoStr GoStr
  | [] => .ok []
  | .text s :: rest => (executeTemplate td rest).map (fun t => s ++ t)
  | .field n ctx :: rest =>
    match lookupField td n with
    | none => .error ("cannot evaluate field ".toList ++ n)
    | some v => (executeTemplate td rest).map (fun t => escapeField ctx v ++ t)

/-- A track artist as read by `buildResultText` (`artist.Name`). -/
structure SimpleArtist where
  name : GoStr
deriving DecidableEq, Repr

/-- The track fields `buildResultText` reads from `spotify.FullTrack`:
name, artists, and the external-URL map (an association list here; a
missing key yields Go's zero value `""`). -/
structure FullTrack where
  name : GoStr
  artists : List SimpleArtist
  externalURLs : List (GoStr × GoStr)
deriving DecidableEq, Repr

/-- First-match lookup in the `ExternalURLs` map. -/
def lookupURL : List (GoStr × GoStr) → GoStr → Option GoStr
  | [], _ => none
  | (k, v) :: rest, key => if k = key then some v else lookupURL rest key

/-- Go `strings.Join` with separator `sep`. -/
def joinStrings (sep : GoStr) : List GoStr → GoStr
  | [] => []
  | [s] => s
  | s :: rest => s ++ sep ++ joinStrings sep rest

/-- Function `buildResultText` (main.go lines 281–302): collect the artist names,
fill `trackData` (`ExternalURLs["spotify"]` defaulting to the empty
string), and execute the track template. -/
def buildResultText (track : FullTrack) : Except GoStr GoStr :=
  let artists := track.artists.map (fun a => a.name)
  let td : TrackData :=
    { Name := track.name
      Artists := joinStrings ", ".toList artists
      URL := (lookupURL track.externalURLs "spotify".toList).getD [] }
  executeTemplate td trackTemplate

/-- The rendered two-line message, written out flat. -/
def renderTrack (track : FullTrack) : GoStr :=
  "<a href=\"".toList ++
    escapeURLAttr ((lookupURL track.externalURLs "spotify".toList).getD []) ++
  "\">".toList ++ htmlEscape track.name ++
  "</a>\nby <b>".toList ++
    htmlEscape (joinStrings ", ".toList (track.artists.map (fun a => a.name))) ++
  "</b>".toList

theorem buildResultText_eq (track : FullTrack) :
    buildResultText track = .ok (renderTrack track) := by
  simp [buildResultText, executeTemplate, trackTemplate, lookupField, escapeField,
    renderTrack, Except.map]

/-! ### The handlers and the dispatcher (main.go lines 108–265)

A handler's observable effect is the list of replies it sends, whether it
called the Spotify search, and the error it returns to the dispatcher.
`searchSpotify` is a single network call; its outcome is an input of the
model.  `results.Tracks.Tracks[0]` in Go panics when the slice is empty,
recorded here as `panicked`. -/

/-- An inline keyboard button attached to a reply. -/
structure InlineButton where
  text : GoStr
  url : GoStr
deriving DecidableEq, Repr

/-- One outbound reply: its text, whether it is sent with
`ParseMode: parsemode.Html`, and its buttons. -/
structure Reply where
  text : GoStr
  parseModeHtml : Bool
  buttons : List InlineButton
deriving DecidableEq, Repr

/-- A reply sent with `msg.Reply(bot, text, nil)`. -/
def plainReply (t : GoStr) : Reply :=
  { text := t, parseModeHtml := false, buttons := [] }

/-- What one handler invocation did. -/
structure RunResult where
  replies : List Reply
  searched : Bool
  err : Option GoStr
  panicked : Bool
deriving DecidableEq, Repr

/-- The track page of `spotify.SearchResult` as the handler reads it:
`results.Tracks.Total` and `results.Tracks.Tracks`. -/
structure SearchResult where
  tracks : List FullTrack
  total : Nat
deriving DecidableEq, Repr

/-- The `Search` button attached to both search-outcome replies. -/
def searchButton (query : GoStr) : InlineButton :=
  { text := "Search".toList, url := buildSpotifyUserSearchURL query }

/-- Text of the zero-results reply. -/
def noResultsText (query : GoStr) : GoStr :=
  "No results found on Spotify by query `".toList ++ query ++ "`".toList

/-- Function `handleAudioMessage` (main.go lines 196–253), with the outcome of its
outcome supplied as `searchOutcome`. -/
def handleAudioMessage (a : Audio) (searchOutcome : Except GoStr SearchResult) : RunResult :=
  match extractQuery a with
  | .error e =>
    { replies := [plainReply "Audio metadata or filename is missing.".toList]
      searched := false, err := some e, panicked := false }
  | .ok query =>
    match searchOutcome with
    | .error e =>
      { replies := [plainReply "Failed to search Spotify.".toList]
        searched := true, err := some e, panicked := false }
    | .ok results =>
      if results.total = 0 then
        { replies := [{ text := noResultsText query, parseModeHtml := false
                        buttons := [searchButton query] }]
          searched := true, err := none, panicked := false }
      else
        match results.tracks with
        | [] => { replies := [], searched := true, err := none, panicked := true }
        | track :: _ =>
          match buildResultText track with
          | .error e => { replies := [], searched := true, err := some e, panicked := false }
          | .ok text =>
            { replies := [{ text := text, parseModeHtml := true
                            buttons := [searchButton query] }]
              searched := true, err := none, panicked := false }

/-- Function `handleUnknownMessage` (main.go lines 262–265). -/
def handleUnknownMessage : RunResult :=
  { replies := [plainReply "Send me an audio file to search on Spotify.".toList]
    searched := false, err := none, panicked := false }

/-- An inbound message update: an audio attachment or anything else. -/
abbrev InboundMessage := Option Audio

/-- Group 0 of the dispatcher: `handlers.NewMessage(message.Audio, ...)` is
registered before `handlers.NewMessage(message.All, ...)`, so an audio
message goes to the audio handler and everything else to the catch-all. -/
def dispatchGroupZero (m : InboundMessage) (searchOutcome : Except GoStr SearchResult) :
    RunResult :=
  match m with
  | some a => handleAudioMessage a searchOutcome
  | none => handleUnknownMessage

/-- What the observer handler returns to the dispatcher. -/
inductive ObserverOutcome where
  | continueGroups
  | errored (e : GoStr)
deriving DecidableEq, Repr

/-- A small JSON rendering of an update, standing for `json.Marshal` of
`ctx.Update`.  The `gotgbot.Update` struct holds only strings, numbers,
booleans, slices and maps — none of the types (channels, functions,
cycles) on which `json.Marshal` can fail — so the marshal step is total
and is embedded as `Except.ok` of the rendered text. -/
def encodeUpdate (m : InboundMessage) : GoStr :=
  let fld : GoStr → GoStr := fun s => '"' :: s ++ "\"".toList
  match m with
  | none => "\x7b\"message\":\x7b\x7d\x7d".toList
  | some a =>
    "\x7b\"message\":\x7b\"audio\":\x7b\"title\":".toList ++ fld a.title ++
    ",\"performer\":".toList ++ fld a.performer ++
    ",\"file_name\":".toList ++ fld a.fileName ++ "\x7d\x7d\x7d".toList

/-- The marshal step of the observer handler. -/
def marshalUpdate (m : InboundMessage) : Except GoStr GoStr :=
  .ok (encodeUpdate m)

/-- Method `HandleAnything.HandleUpdate` (main.go lines 177–190): when debug
logging is enabled, marshal and log the raw update, propagating a marshal
error; in every case that actually returns, yield `ext.ContinueGroups`. -/
def handleAnythingUpdate (debugEnabled : Bool) (m : InboundMessage) : ObserverOutcome :=
  if debugEnabled then
    match marshalUpdate m with
    | .error e => .errored ("failed to marshal update: ".toList ++ e)
    | .ok _ => .continueGroups
  else .continueGroups

/-- The whole dispatch of one message update: the observer handler runs in
group `-1`; if it returns an error the dispatcher's `Error` callback ends
the groups (no further handler runs), otherwise group `0` runs. -/
def dispatchUpdate (debugEnabled : Bool) (m : InboundMessage)
    (searchOutcome : Except GoStr SearchResult) : RunResult :=
  match handleAnythingUpdate debugEnabled m with
  | .errored e => { replies := [], searched := false, err := some e, panicked := false }
  | .continueGroups => dispatchGroupZero m searchOutcome

/-! ## The claims -/

/-- C1: for every audio attachment whose trimmed title or trimmed performer
is non-blank, the extracted search query is the trimmed concatenation of
the trimmed title and the trimmed performer separated by a single space. -/
theorem extractQuery_joins_trimmed_title_performer (a : Audio)
    (h : trimSpace a.title ≠ [] ∨ trimSpace a.performer ≠ []) :
    extractQuery a =
      .ok (trimSpace (trimSpace a.title ++ " ".toList ++ trimSpace a.performer)) := by
  have hne : trimSpace (trimSpace a.title ++ ' ' :: trimSpace a.performer) ≠ [] := by
    rcases h with h | h
    · exact trimSpace_append_ne_nil_left (t := ' ' :: trimSpace a.performer) h
    · have := trimSpace_append_ne_nil_right (s := trimSpace a.title ++ [' ']) h
      simpa using this
  simp [extractQuery, hne]

/-- Witness for C1, the spec's scenario: title `"  Imagine  "` and
performer `" John Lennon "` yield the query `"Imagine John Lennon"`. -/
theorem extractQuery_joins_trimmed_title_performer_witness :
    extractQuery
        { title := "  Imagine  ".toList, performer := " John Lennon ".toList
          fileName := "whatever.mp3".toList } =
      .ok "Imagine John Lennon".toList :=
  (extractQuery_joins_trimmed_title_performer _ (Or.inl (by decide))).trans
    (congrArg Except.ok (by decide))

/-- Counterexample to C2: the code strips only the literal suffix `".mp3"`.
With blank title and performer and file name `"My Song.wav"` the query is
`"My Song.wav"`, not the claim's `"My Song"`. -/
theorem extractQuery_wav_suffix_not_stripped :
    extractQuery { title := [], performer := [], fileName := "My Song.wav".toList } =
      .ok "My Song.wav".toList ∧
    "My Song.wav".toList ≠ "My Song".toList := by
  constructor
  · rfl
  · decide

/-- C2 as amended: for every audio attachment with blank title and
performer whose file name is still non-blank after removing one trailing
lower-case `".mp3"` and trimming, the query is the file name with that one
suffix removed and trimmed; no other suffix (`".wav"`, `".flac"`,
`".MP3"`, …) is removed. -/
theorem extractQuery_mp3_fallback (a : Audio)
    (ht : trimSpace a.title = []) (hp : trimSpace a.performer = [])
    (hf : trimSpace (trimSuffix ".mp3".toList a.fileName) ≠ []) :
    extractQuery a = .ok (trimSpace (trimSuffix ".mp3".toList a.fileName)) := by
  have hsp : trimSpace [' '] = [] := by decide
  have hf' : ¬trimSpace (trimSuffix ['.', 'm', 'p', '3'] a.fileName) = [] := hf
  simp [extractQuery, ht, hp, hsp, hf']

/-- Witness for the amended C2, the spec's scenario: file name
`"My Song.mp3"` yields the query `"My Song"`. -/
theorem extractQuery_mp3_fallback_witness :
    extractQuery { title := [], performer := [], fileName := "My Song.mp3".toList } =
      .ok "My Song".toList :=
  (extractQuery_mp3_fallback _ (by decide) (by decide) (by decide)).trans
    (congrArg Except.ok (by decide))

/-- C3: with blank title, performer and file name, extraction fails, the
handler replies exactly `"Audio metadata or filename is missing."`, returns
an error, and never calls the Spotify search. -/
theorem emptyQuery_reply_and_drop (a : Audio) (s : Except GoStr SearchResult)
    (ht : trimSpace a.title = []) (hp : trimSpace a.performer = [])
    (hf : trimSpace a.fileName = []) :
    extractQuery a = .error "audio metadata or filename is missing".toList ∧
    handleAudioMessage a s =
      { replies := [plainReply "Audio metadata or filename is missing.".toList]
        searched := false
        err := some "audio metadata or filename is missing".toList
        panicked := false } := by
  have h1 : trimSpace (trimSpace a.title ++ ' ' :: trimSpace a.performer) = [] := by
    rw [ht, hp]; decide
  have h2 : trimSpace (trimSuffix ".mp3".toList a.fileName) = [] := by
    rw [trimSuffix_mp3_of_blank hf]; exact hf
  have hq : extractQuery a = .error "audio metadata or filename is missing".toList := by
    have h2' : trimSpace (trimSuffix ['.', 'm', 'p', '3'] a.fileName) = [] := h2
    simp [extractQuery, h1, h2']
  exact ⟨hq, by simp [handleAudioMessage, hq]⟩

/-- Witness for C3, the spec's scenario: the all-empty attachment. -/
theorem emptyQuery_reply_and_drop_witness :
    extractQuery { title := [], performer := [], fileName := [] } =
      .error "audio metadata or filename is missing".toList ∧
    handleAudioMessage { title := [], performer := [], fileName := [] }
        (.ok { tracks := [], total := 0 }) =
      { replies := [plainReply "Audio metadata or filename is missing.".toList]
        searched := false
        err := some "audio metadata or filename is missing".toList
        panicked := false } :=
  emptyQuery_reply_and_drop _ _ (by decide) (by decide) (by decide)

/-- C4: for a search result with at least one track the handler sends one
HTML-mode reply whose text is the two-line rendering of the first track —
the link target is the track's escaped canonical URL, the link text its
escaped name, and the second line the bold, escaped artist names joined
by `", "` — every further track being ignored. -/
theorem firstTrack_reply_format (a : Audio) (q : GoStr) (r : SearchResult)
    (t : FullTrack) (rest : List FullTrack)
    (hq : extractQuery a = .ok q) (htr : r.tracks = t :: rest) (htot : r.total ≠ 0) :
    handleAudioMessage a (.ok r) =
      { replies := [{ text := renderTrack t, parseModeHtml := true
                      buttons := [searchButton q] }]
        searched := true, err := none, panicked := false } := by
  simp [handleAudioMessage, hq, htot, htr, buildResultText_eq]

/-- A concrete search hit used by witnesses. -/
def imagineTrack : FullTrack :=
  { name := "Imagine".toList
    artists := [{ name := "John Lennon".toList }]
    externalURLs := [("spotify".toList, "https://open.spotify.com/track/abc123".toList)] }

/-- Witness for C4: a one-track result for the query `"Imagine"`. -/
theorem firstTrack_reply_format_witness :
    handleAudioMessage { title := "Imagine".toList, performer := [], fileName := [] }
        (.ok { tracks := [imagineTrack], total := 1 }) =
      { replies := [{ text := renderTrack imagineTrack, parseModeHtml := true
                      buttons := [searchButton "Imagine".toList] }]
        searched := true, err := none, panicked := false } :=
  firstTrack_reply_format _ "Imagine".toList _ imagineTrack []
    ((extractQuery_joins_trimmed_title_performer _ (Or.inl (by decide))).trans
      (congrArg Except.ok (by decide)))
    rfl (by decide)

/-- C5: for a zero-track search result the single reply's text contains
the query verbatim, and its one inline button targets exactly
`https://open.spotify.com/search/` followed by the path-escaped query. -/
theorem noResults_reply_contains_query_and_search_link (a : Audio) (q : GoStr)
    (r : SearchResult) (hq : extractQuery a = .ok q) (h0 : r.total = 0) :
    handleAudioMessage a (.ok r) =
      { replies := [{ text := noResultsText q, parseModeHtml := false
                      buttons := [searchButton q] }]
        searched := true, err := none, panicked := false } ∧
    (∃ pre post, noResultsText q = pre ++ q ++ post) ∧
    (searchButton q).url =
      "https://open.spotify.com/search/".toList ++ pathEscapeBytes (utf8Encode q) := by
  refine ⟨by simp [handleAudioMessage, hq, h0],
    ⟨"No results found on Spotify by query `".toList, "`".toList, rfl⟩, ?_⟩
  have hbase : "https://open.spotify.com/search".toList ++ "/".toList =
      "https://open.spotify.com/search/".toList := by decide
  show buildSpotifyUserSearchURL q = _
  rw [buildSpotifyUserSearchURL, ← hbase, List.append_assoc]

/-- Witness for C5: the query `"Imagine"` with an empty result. -/
theorem noResults_reply_contains_query_and_search_link_witness :
    handleAudioMessage { title := "Imagine".toList, performer := [], fileName := [] }
        (.ok { tracks := [], total := 0 }) =
      { replies := [{ text := noResultsText "Imagine".toList, parseModeHtml := false
                      buttons := [searchButton "Imagine".toList] }]
        searched := true, err := none, panicked := false } ∧
    (∃ pre post, noResultsText "Imagine".toList = pre ++ "Imagine".toList ++ post) ∧
    (searchButton "Imagine".toList).url =
      "https://open.spotify.com/search/".toList ++
        pathEscapeBytes (utf8Encode "Imagine".toList) :=
  noResults_reply_contains_query_and_search_link _ "Imagine".toList _
    ((extractQuery_joins_trimmed_title_performer _ (Or.inl (by decide))).trans
      (congrArg Except.ok (by decide)))
    rfl

/-! ### Escaping lemmas for C6 -/

theorem escapeHTMLChar_count_eq_zero (c x : Char)
    (hx : x = '<' ∨ x = '>' ∨ x = '"') : (escapeHTMLChar c).count x = 0 := by
  unfold escapeHTMLChar
  split_ifs with h0 h1 h2 h3 h4 h5 h6 h7
  · rcases hx with hx | hx | hx <;> subst hx <;> decide
  · rcases hx with hx | hx | hx <;> subst hx <;> decide
  · rcases hx with hx | hx | hx <;> subst hx <;> decide
  · rcases hx with hx | hx | hx <;> subst hx <;> decide
  · rcases hx with hx | hx | hx <;> subst hx <;> decide
  · rcases hx with hx | hx | hx <;> subst hx <;> decide
  · rcases hx with hx | hx | hx <;> subst hx <;> decide
  · rcases hx with hx | hx | hx <;> subst hx <;> decide
  · have hcx : c ≠ x := by
      rcases hx with hx | hx | hx <;> subst hx
      · exact h5
      · exact h7
      · exact h1
    simp [List.count_cons, hcx]

theorem htmlEscape_count_eq_zero (s : GoStr) (x : Char)
    (hx : x = '<' ∨ x = '>' ∨ x = '"') : (htmlEscape s).count x = 0 := by
  induction s with
  | nil => rfl
  | cons c rest ih =>
    rw [htmlEscape, List.count_append, ih, escapeHTMLChar_count_eq_zero c x hx]

theorem htmlEscape_count_lt (s : GoStr) : (htmlEscape s).count '<' = 0 :=
  htmlEscape_count_eq_zero s '<' (Or.inl rfl)

theorem htmlEscape_count_gt (s : GoStr) : (htmlEscape s).count '>' = 0 :=
  htmlEscape_count_eq_zero s '>' (Or.inr (Or.inl rfl))

theorem htmlEscape_count_quote (s : GoStr) : (htmlEscape s).count '"' = 0 :=
  htmlEscape_count_eq_zero s '"' (Or.inr (Or.inr rfl))

/-- C6: every angle bracket and every double quote of the rendered message
comes from the fixed template, never from the interpolated track name,
artist names or URL: the output has exactly the template's four `<`, four
`>` and two `"`, whatever untrusted strings the track carries. -/
theorem render_escapes_interpolations (t : FullTrack) (out : GoStr)
    (h : buildResultText t = .ok out) :
    out.count '<' = 4 ∧ out.count '>' = 4 ∧ out.count '"' = 2 := by
  rw [buildResultText_eq] at h
  have hout : out = renderTrack t := (Except.ok.inj h).symm
  subst hout
  refine ⟨?_, ?_, ?_⟩ <;>
    simp only [renderTrack, escapeURLAttr, List.count_append,
      htmlEscape_count_lt, htmlEscape_count_gt, htmlEscape_count_quote] <;>
    decide

/-- A track whose every field tries to break out of the markup. -/
def hostileTrack : FullTrack :=
  { name := "<script>\"pwn\"</script>".toList
    artists := [{ name := "A&B".toList }, { name := "C<D>".toList }]
    externalURLs := [("spotify".toList, "https://x/\" onload=\"evil()".toList)] }

/-- Witness for C6: the hostile track still renders with exactly the
template's own markup delimiters. -/
theorem render_escapes_interpolations_witness :
    (renderTrack hostileTrack).count '<' = 4 ∧
    (renderTrack hostileTrack).count '>' = 4 ∧
    (renderTrack hostileTrack).count '"' = 2 :=
  render_escapes_interpolations hostileTrack (renderTrack hostileTrack)
    (buildResultText_eq hostileTrack)

/-- C7: every message update that reaches group 0 produces exactly one
reply, in every reachable branch — empty query, search failure, zero
results, non-empty results (the render step never fails, so its error
branch sends nothing but is unreachable) — and a message without audio
falls through to the catch-all, whose reply is exactly
`"Send me an audio file to search on Spotify."`.  The hypothesis states
the search API's consistency: a non-zero track total comes with a
non-empty track page (on an inconsistent result Go's `Tracks[0]` would
panic). -/
theorem one_reply_per_message (m : InboundMessage) (s : Except GoStr SearchResult)
    (hwf : ∀ r, s = .ok r → r.total ≠ 0 → r.tracks ≠ []) :
    (dispatchGroupZero m s).replies.length = 1 ∧
    (m = none → dispatchGroupZero m s =
      { replies := [plainReply "Send me an audio file to search on Spotify.".toList]
        searched := false, err := none, panicked := false }) := by
  cases m with
  | none => exact ⟨rfl, fun _ => rfl⟩
  | some a =>
    refine ⟨?_, fun h => by cases h⟩
    show (handleAudioMessage a s).replies.length = 1
    cases hq : extractQuery a with
    | error e => simp [handleAudioMessage, hq]
    | ok q =>
      cases s with
      | error e => simp [handleAudioMessage, hq]
      | ok r =>
        by_cases h0 : r.total = 0
        · simp [handleAudioMessage, hq, h0]
        · cases htrk : r.tracks with
          | nil => exact absurd htrk (hwf r rfl h0)
          | cons t rest =>
            simp [handleAudioMessage, hq, h0, htrk, buildResultText_eq]

/-- Witness for C7, the spec's scenario: a text-only message gets exactly
the catch-all reply. -/
theorem one_reply_per_message_witness :
    (dispatchGroupZero none (.ok { tracks := [], total := 0 })).replies.length = 1 ∧
    (none = (none : InboundMessage) →
      dispatchGroupZero none (.ok { tracks := [], total := 0 }) =
        { replies := [plainReply "Send me an audio file to search on Spotify.".toList]
          searched := false, err := none, panicked := false }) :=
  one_reply_per_message none (.ok { tracks := [], total := 0 })
    (fun r hr => by
      injection hr with h
      subst h
      intro h0
      exact absurd rfl h0)

/-- C8: the observer handler in group `-1` always returns
`ext.ContinueGroups` — `json.Marshal` cannot fail on the plain `Update`
struct, so the error return is unreachable — and therefore dispatching a
full update always reaches group 0 unchanged. -/
theorem observer_always_continues (debugEnabled : Bool) (m : InboundMessage)
    (s : Except GoStr SearchResult) :
    handleAnythingUpdate debugEnabled m = .continueGroups ∧
    dispatchUpdate debugEnabled m s = dispatchGroupZero m s := by
  have h : handleAnythingUpdate debugEnabled m = .continueGroups := by
    cases debugEnabled <;> simp [handleAnythingUpdate, marshalUpdate]
  exact ⟨h, by simp [dispatchUpdate, h]⟩

/-- C9: path-escaping a Go string (a byte string) containing the reserved
bytes space, `&` or `?` and then path-unescaping it succeeds and returns
the original bytes unchanged. -/
theorem pathEscape_roundtrip (bs : List Nat) (hbytes : ∀ b ∈ bs, b < 256)
    (hreserved : 32 ∈ bs ∨ 38 ∈ bs ∨ 63 ∈ bs) :
    pathUnescapeBytes (pathEscapeBytes bs) = .ok bs :=
  pathUnescape_pathEscapeBytes hbytes

/-- Witness for C9: the bytes of `"a b&c?"`. -/
theorem pathEscape_roundtrip_witness :
    pathUnescapeBytes (pathEscapeBytes [97, 32, 98, 38, 99, 63]) =
      .ok [97, 32, 98, 38, 99, 63] :=
  pathEscape_roundtrip [97, 32, 98, 38, 99, 63] (by decide) (Or.inl (by decide))

/-- C10: `buildResultText` never returns an error — the template is a
constant valid one over plain string fields, so the render-failure branch
of the handler is unreachable — and a track without a `"spotify"` entry in
its external-URL map renders with an empty link target instead of
failing. -/
theorem buildResultText_never_fails (t : FullTrack) :
    buildResultText t = .ok (renderTrack t) ∧
    (lookupURL t.externalURLs "spotify".toList = none →
      escapeURLAttr ((lookupURL t.externalURLs "spotify".toList).getD []) = []) := by
  refine ⟨buildResultText_eq t, fun hnone => ?_⟩
  rw [hnone]
  rfl

/-- A track with no external-URL entries at all. -/
def urllessTrack : FullTrack :=
  { name := "Song".toList, artists := [{ name := "Artist".toList }], externalURLs := [] }

/-- Witness for C10: the URL-less track renders successfully, with an
empty link target. -/
theorem buildResultText_never_fails_witness :
    buildResultText urllessTrack = .ok (renderTrack urllessTrack) ∧
    escapeURLAttr ((lookupURL urllessTrack.externalURLs "spotify".toList).getD []) = [] :=
  ⟨(buildResultText_never_fails urllessTrack).1,
   (buildResultText_never_fails urllessTrack).2 rfl⟩

end SpotifyBot
